import Mathlib

/-!
Verification of the HTTP load-testing harness `uri_test.py` (core module of
the repository).  The module performs one HTTP GET per request (`run_test`),
fans `request_count` such requests over a `multiprocessing.Pool` of at most
`workers` processes, and reduces the collected `URIResult`s into an aggregate
report (`main`).

Shallow embedding conventions:
* Python unbounded integers are `Int` (byte counts, which come from `len`,
  are `Nat`).
* Wall-clock instants and durations are `ℚ`; the network is an oracle that
  assigns to every invocation the outcome of `open_url` (HTTP code, body
  length, time spent inside `open_url`, and time spent in `res.read()`),
  or a raised transport exception.
* A raised Python exception is the `.error` side of `Except`.
* `round(x, n)` is Python 3 float rounding, modelled exactly on ℚ as
  round-half-to-even at `n` decimal digits.
-/

/-- Outcome of one `open_url(uri, headers=headers)` call, as seen by the
executor: either a response (status code, body byte length, time consumed by
`open_url` itself, time consumed by the subsequent `res.read()`), or a raised
network/transport exception carrying a message. -/
inductive HttpOutcome where
  | ok (code : Int) (bodyLen : Nat) (openTime readTime : ℚ)
  | netError (msg : String)
deriving DecidableEq

/-- The network oracle: what `open_url` does for a given invocation index,
target uri and outgoing header list. -/
def Network : Type := Nat → String → List (String × String) → HttpOutcome

/-- The namedtuple URIResult with fields status, time, content_length,
total_length (uri_test.py line 105). -/
structure URIResult where
  status : Int
  time : ℚ
  content_length : Nat
  total_length : Nat
deriving DecidableEq

/-- The module parameters pulled out of `module.params` (uri_test.py lines
132-136). -/
structure Config where
  uri : String
  request_count : Int
  workers : Int
  keepalive : Bool
  variable_length : Bool

/-- How a run of `main` can terminate without `exit_json`:
* `failJson`: `module.fail_json(...)` (line 140);
* `attributeError`: the crash raised by line 142, which reads
  `module.fail-json(...)` — Python parses this as the subtraction
  `module.fail - json(...)` and evaluating `module.fail` raises
  `AttributeError` before any call happens;
* `transport`: an exception stored by a pool task and re-raised by
  `async_result.get()` (line 161);
* `zeroDivision`: `ZeroDivisionError` from `request_count / total_time`
  (line 172) when `total_time` is zero. -/
inductive DriverError where
  | failJson (msg : String)
  | attributeError (msg : String)
  | transport (msg : String)
  | zeroDivision
deriving DecidableEq

/-- The dictionary passed to `module.exit_json(**result)` (lines 168-175). -/
structure Report where
  total_time : ℚ
  total_bytes_transferred : Nat
  total_content_bytes_transferred : Nat
  requests_per_second : ℚ
  kbytes_per_second : ℚ
  failed_requests : Nat
deriving DecidableEq

/-- Round a rational to the nearest integer, ties to even — the rounding used
by the built-in `round` of Python 3. -/
def roundHalfEven (q : ℚ) : Int :=
  if q - ⌊q⌋ < 1/2 then ⌊q⌋
  else if 1/2 < q - ⌊q⌋ then ⌊q⌋ + 1
  else if ⌊q⌋ % 2 = 0 then ⌊q⌋ else ⌊q⌋ + 1

/-- The Python call `round(q, n)`: round to `n` decimal places, ties to
even. -/
def pyRound (n : Nat) (q : ℚ) : ℚ :=
  (roundHalfEven (q * 10 ^ n) : ℚ) / 10 ^ n

/-- The function `run_test(uri, keepalive, variable_length)` (uri_test.py
lines 107-117), started at clock instant `t0`, with `net` the behaviour of
`open_url(uri, headers=headers)` for this invocation.

Faithful to the source:
* the `Connection: keep-alive` header is attached iff `keepalive` (109-110);
* `start = time.time()` before `open_url`, `end = time.time()` right after it
  (111-113) — before `res.read()`;
* there is no `try`/`except`: an exception from `open_url` propagates (the
  `.error` branch);
* `total_length = content_length = len(res.read())` (116);
* the returned pair is the `URIResult` together with the clock instant at
  which the invocation finishes (after the body read).
`variable_length` is accepted but never used by the function body. -/
def run_test (net : String → List (String × String) → HttpOutcome)
    (uri : String) (keepalive : Bool) (variable_length : Bool) (t0 : ℚ) :
    Except String (URIResult × ℚ) :=
  let headers : List (String × String) :=
    if keepalive then [("Connection", "keep-alive")] else []
  let start := t0
  match net uri headers with
  | .netError msg => .error msg
  | .ok code bodyLen openTime readTime =>
    let endTime := start + openTime
    let content_length := bodyLen
    let total_length := content_length
    .ok (⟨code, endTime - start, content_length, total_length⟩,
         endTime + readTime)

/-- Lines 143-144 and 147: `if request_count < workers: workers =
request_count`, then `Pool(processes=workers)` — the number of processes the
pool is created with. -/
def effectiveWorkers (request_count workers : Int) : Int :=
  if request_count < workers then request_count else workers

/-- The result list produced by the fan-out
`[pool.apply_async(run_test, (uri, keepalive, variable_length)) for i in
range(0, request_count)]` (line 149): one `run_test` outcome per index.  An
exception raised inside a task is stored in its `AsyncResult` (the `.error`
side) and only re-raised later by `.get()`. -/
def taskResults (cfg : Config) (net : Network) :
    List (Except String URIResult) :=
  (List.range cfg.request_count.toNat).map fun i =>
    (run_test (net i) cfg.uri cfg.keepalive cfg.variable_length 0).map
      Prod.fst

/-- The accumulation loop over `async_results` (lines 160-165), with
accumulators `total_bytes`, `total_content_bytes`, `total_errors`.
`async_result.get()` re-raises the stored exception of a failed task, so the
loop aborts at the first failed entry in list order; otherwise it adds
`res.total_length`, `res.content_length`, and 1 whenever
`res.status < 200 or res.status >= 400`. -/
def collectLoop (total_bytes total_content_bytes total_errors : Nat) :
    List (Except String URIResult) → Except String (Nat × Nat × Nat)
  | [] => .ok (total_bytes, total_content_bytes, total_errors)
  | .error msg :: _ => .error msg
  | .ok res :: rest =>
    collectLoop (total_bytes + res.total_length)
      (total_content_bytes + res.content_length)
      (total_errors + if res.status < 200 ∨ 400 ≤ res.status then 1 else 0)
      rest

/-- The function `main()` (uri_test.py lines 119-178), after argument
parsing.  `net` is
the network oracle; `wall` is the wall-clock duration `end - start` measured
around the pool fan-out/join (lines 148-152).

Faithful to the source:
* `if workers < 1: module.fail_json(...)` (139-140);
* `if request_count < 1: module.fail-json(...)` (141-142) — a typo for
  `fail_json`; Python evaluates `module.fail` and raises `AttributeError`;
* clamping and pool creation via `effectiveWorkers` (143-147);
* `total_time = round(end - start, 3)` (155);
* the reduction loop (160-165), which re-raises the first stored task
  exception;
* `requests_per_second = round(request_count / total_time, 2)` and
  `kbytes_per_second = round((float(total_bytes) / total_time) / 2**10, 2)`
  (172-173): when `total_time` is zero Python raises `ZeroDivisionError`,
  which happens after the loop has finished. -/
def main_run (cfg : Config) (net : Network) (wall : ℚ) :
    Except DriverError Report :=
  if cfg.workers < 1 then
    .error (.failJson "workers must be greater than 0")
  else if cfg.request_count < 1 then
    .error (.attributeError "AnsibleModule object has no attribute fail")
  else
    let pool_processes := effectiveWorkers cfg.request_count cfg.workers
    let results := taskResults cfg net
    let total_time := pyRound 3 wall
    match collectLoop 0 0 0 results with
    | .error msg => .error (.transport msg)
    | .ok (total_bytes, total_content_bytes, total_errors) =>
      if total_time = 0 then .error .zeroDivision
      else
        .ok { total_time := total_time
              total_bytes_transferred := total_bytes
              total_content_bytes_transferred := total_content_bytes
              requests_per_second :=
                pyRound 2 ((cfg.request_count : ℚ) / total_time)
              kbytes_per_second :=
                pyRound 2 (((total_bytes : ℚ) / total_time) / 2 ^ 10)
              failed_requests := total_errors }

/-- The predicate of line 164: `res.status < 200 or res.status >= 400`. -/
def failedStatus (r : URIResult) : Bool :=
  decide (r.status < 200 ∨ 400 ≤ r.status)

/-- Running the accumulation loop over a list of successful task outcomes
adds the sum of `total_length`, the sum of `content_length`, and the number
of out-of-range statuses to the accumulators. -/
lemma collectLoop_map_ok (rs : List URIResult) (tb tcb te : Nat) :
    collectLoop tb tcb te (rs.map Except.ok) =
      .ok (tb + (rs.map URIResult.total_length).sum,
           tcb + (rs.map URIResult.content_length).sum,
           te + rs.countP failedStatus) := by
  induction rs generalizing tb tcb te with
  | nil => simp [collectLoop]
  | cons r rest ih =>
    simp only [List.map_cons, collectLoop, ih, List.sum_cons,
      List.countP_cons, Except.ok.injEq, Prod.mk.injEq]
    refine ⟨by omega, by omega, ?_⟩
    by_cases hp : r.status < 200 ∨ 400 ≤ r.status <;>
      simp [hp, failedStatus] <;> omega

/-- If the accumulation loop finishes without re-raising a stored exception,
every task outcome in the list was successful. -/
lemma collectLoop_ok_elim :
    ∀ (l : List (Except String URIResult)) (tb tcb te : Nat)
      (out : Nat × Nat × Nat), collectLoop tb tcb te l = .ok out →
      ∃ rs : List URIResult, l = rs.map Except.ok := by
  intro l
  induction l with
  | nil => exact fun _ _ _ _ _ => ⟨[], rfl⟩
  | cons x rest ih =>
    intro tb tcb te out h
    cases x with
    | error m => simp [collectLoop] at h
    | ok r =>
      simp only [collectLoop] at h
      obtain ⟨rs, hrs⟩ := ih _ _ _ _ h
      exact ⟨r :: rs, by simp [hrs]⟩

/-- If some task stored an exception, the accumulation loop re-raises one
(the first in iteration order) instead of returning totals. -/
lemma collectLoop_error_of_mem {msg : String} :
    ∀ (l : List (Except String URIResult)), Except.error msg ∈ l →
      ∀ tb tcb te : Nat, ∃ m, collectLoop tb tcb te l = .error m := by
  intro l
  induction l with
  | nil => intro h; simp at h
  | cons x rest ih =>
    intro h tb tcb te
    cases x with
    | error m => exact ⟨m, rfl⟩
    | ok r =>
      have hm : Except.error msg ∈ rest := by
        rcases List.mem_cons.mp h with h1 | h1
        · exact absurd h1 (by simp)
        · exact h1
      obtain ⟨m, hm2⟩ := ih hm (tb + r.total_length) (tcb + r.content_length)
        (te + if r.status < 200 ∨ 400 ≤ r.status then 1 else 0)
      exact ⟨m, by simpa [collectLoop] using hm2⟩

/-- Inversion for a successful executor invocation: the result can only come
from a successful `open_url`, the recorded duration is the `open_url` time,
both lengths are the body length, and the invocation finishes after the
additional body-read time. -/
lemma run_test_ok_elim (net : String → List (String × String) → HttpOutcome)
    (uri : String) (ka vl : Bool) (t0 : ℚ) (r : URIResult) (tEnd : ℚ)
    (h : run_test net uri ka vl t0 = .ok (r, tEnd)) :
    ∃ (code : Int) (bodyLen : Nat) (oT rT : ℚ),
      net uri (if ka then [("Connection", "keep-alive")] else []) =
        .ok code bodyLen oT rT ∧
      r = ⟨code, oT, bodyLen, bodyLen⟩ ∧ tEnd = t0 + oT + rT := by
  simp only [run_test] at h
  split at h
  · exact absurd h (by simp)
  · rename_i code bodyLen oT rT hn
    simp only [Except.ok.injEq, Prod.mk.injEq] at h
    obtain ⟨hr, ht⟩ := h
    refine ⟨code, bodyLen, oT, rT, by assumption, ?_, ?_⟩
    · rw [← hr]
      congr 1
      ring
    · rw [← ht]

/-- Every successful value in the fan-out result list has
`total_length = content_length` (both are the body length read by
`run_test`). -/
lemma taskResults_total_eq_content (cfg : Config) (net : Network)
    (rs : List URIResult) (hrs : taskResults cfg net = rs.map Except.ok) :
    ∀ r ∈ rs, r.total_length = r.content_length := by
  intro r hr
  have hmem : Except.ok r ∈ taskResults cfg net := by
    rw [hrs]; exact List.mem_map_of_mem _ hr
  simp only [taskResults, List.mem_map] at hmem
  obtain ⟨i, -, hi⟩ := hmem
  cases hrun : run_test (net i) cfg.uri cfg.keepalive cfg.variable_length 0
    with
  | error m => rw [hrun] at hi; simp [Except.map] at hi
  | ok p =>
    obtain ⟨r', tEnd⟩ := p
    rw [hrun] at hi
    simp only [Except.map, Except.ok.injEq] at hi
    obtain ⟨code, bodyLen, oT, rT, -, hr', -⟩ :=
      run_test_ok_elim _ _ _ _ _ _ _ hrun
    rw [← hi, hr']

/-- Characterization of a run that reaches `exit_json`: both validation
checks passed, every task succeeded, the rounded wall time is nonzero, and
every field of the returned report is determined by the list of successful
results and the wall time. -/
lemma main_run_ok_elim (cfg : Config) (net : Network) (wall : ℚ)
    (rep : Report) (h : main_run cfg net wall = .ok rep) :
    1 ≤ cfg.workers ∧ 1 ≤ cfg.request_count ∧ pyRound 3 wall ≠ 0 ∧
    ∃ rs : List URIResult,
      taskResults cfg net = rs.map Except.ok ∧
      rep = { total_time := pyRound 3 wall
              total_bytes_transferred := (rs.map URIResult.total_length).sum
              total_content_bytes_transferred :=
                (rs.map URIResult.content_length).sum
              requests_per_second :=
                pyRound 2 ((cfg.request_count : ℚ) / pyRound 3 wall)
              kbytes_per_second :=
                pyRound 2 ((((rs.map URIResult.total_length).sum : ℚ) /
                  pyRound 3 wall) / 2 ^ 10)
              failed_requests := rs.countP failedStatus } := by
  simp only [main_run] at h
  split_ifs at h with h1 h2 h0
  · split at h <;> exact absurd h (by simp)
  · split at h
    · exact absurd h (by simp)
    · rename_i a b c heq
      obtain ⟨rs, hrs⟩ := collectLoop_ok_elim _ _ _ _ _ heq
      rw [hrs, collectLoop_map_ok] at heq
      simp only [Except.ok.injEq, Prod.mk.injEq, Nat.zero_add] at heq
      obtain ⟨ha, hb, hc⟩ := heq
      simp only [Except.ok.injEq] at h
      refine ⟨by omega, by omega, h0, rs, hrs, ?_⟩
      rw [← h, ← ha, ← hb, ← hc]

/-- A concrete three-request configuration used to exercise the driver. -/
def demoCfg : Config := ⟨"http://example.test/ok", 3, 2, false, false⟩

/-- A concrete network behaviour: request 0 gets a 200 with a 1000-byte
body, request 1 a 404 with a 14-byte body, request 2 a 500 with a 10-byte
body; each `open_url` takes 1 second and each body read 0 seconds. -/
def demoNet : Network := fun i _ _ =>
  if i = 0 then .ok 200 1000 1 0
  else if i = 1 then .ok 404 14 1 0
  else .ok 500 10 1 0

/-- The three results collected under `demoNet`. -/
def demoRs : List URIResult :=
  [⟨200, 1, 1000, 1000⟩, ⟨404, 1, 14, 14⟩, ⟨500, 1, 10, 10⟩]

/-- The report of the demo run with a measured wall time of 1 second. -/
def demoRep : Report := ⟨1, 1024, 1024, 3, 1, 2⟩

lemma demo_tasks : taskResults demoCfg demoNet = demoRs.map Except.ok := by
  simp [taskResults, run_test, demoCfg, demoNet, demoRs, List.range_succ,
    Except.map]

lemma demo_run : main_run demoCfg demoNet 1 = .ok demoRep := by
  simp only [main_run, taskResults, run_test, collectLoop, demoCfg, demoNet,
    List.range_succ, Except.map, List.range_zero, List.map_nil,
    List.map_append, List.map_cons, List.nil_append, List.cons_append]
  norm_num [pyRound, roundHalfEven, collectLoop, demoRep]

/-- A two-request configuration whose second request hits a transport
error. -/
def errCfg : Config := ⟨"http://example.test/ok", 2, 2, false, false⟩

/-- Network behaviour for `errCfg`: request 0 succeeds with a 200 and a
1000-byte body, request 1 raises a connection error inside `open_url`. -/
def errNet : Network := fun i _ _ =>
  if i = 0 then .ok 200 1000 1 0 else .netError "connection refused"

/-- C1, counterexample: with one transport error among two requests, `main`
does not return an AggregateReport at all — the stored exception is
re-raised by `async_result.get()` and the run aborts, contradicting the
claim that the error is absorbed and a full report covering all requests is
returned. -/
theorem C1_counterexample :
    main_run errCfg errNet 1 = .error (.transport "connection refused") := by
  simp [main_run, taskResults, run_test, collectLoop, errCfg, errNet,
    List.range_succ, Except.map]

/-- C1 (amended): a network/transport error raised during any executor
invocation is not absorbed: it is stored by the pool and re-raised when the
result-collection loop reaches it, so a validated run whose task list
contains a failed invocation aborts with that propagated exception and
returns no report. -/
theorem C1_transport_error_aborts_run (cfg : Config) (net : Network)
    (wall : ℚ) (msg : String) (h1 : 1 ≤ cfg.workers)
    (h2 : 1 ≤ cfg.request_count)
    (herr : Except.error msg ∈ taskResults cfg net) :
    ∃ m, main_run cfg net wall = .error (.transport m) := by
  obtain ⟨m, hc⟩ := collectLoop_error_of_mem _ herr 0 0 0
  refine ⟨m, ?_⟩
  simp only [main_run]
  rw [if_neg (by omega), if_neg (by omega), hc]

/-- C1, witness for the amended theorem at the concrete failing run. -/
theorem C1_transport_error_aborts_run_witness :
    ∃ m, main_run errCfg errNet 1 = .error (.transport m) :=
  C1_transport_error_aborts_run errCfg errNet 1 "connection refused"
    (by decide) (by decide)
    (by simp [taskResults, run_test, errCfg, errNet, List.range_succ,
      Except.map])

/-- C2: with `request_count = 0` (and valid `workers = 5`), the module does
detect the bad value before any executor invocation (the result does not
depend on the network oracle), but the line `module.fail-json(...)` is a
typo for `module.fail_json(...)`: Python evaluates the attribute
`module.fail` and crashes with AttributeError instead of returning the
intended validation failure. -/
theorem C2_request_count_validation_crash (net : Network) (wall : ℚ) :
    main_run ⟨"http://example.test/ok", 0, 5, false, false⟩ net wall =
      .error
        (.attributeError "AnsibleModule object has no attribute fail") := by
  simp [main_run]

/-- C3: for a valid configuration with more workers than requests, the pool
is created with `request_count` processes, not `workers`, and no
configuration error is raised. -/
theorem C3_workers_clamped_to_request_count (cfg : Config)
    (h1 : 1 ≤ cfg.request_count) (h2 : cfg.request_count < cfg.workers) :
    effectiveWorkers cfg.request_count cfg.workers = cfg.request_count ∧
    ∀ (net : Network) (wall : ℚ) (m : String),
      main_run cfg net wall ≠ .error (.failJson m) ∧
      main_run cfg net wall ≠ .error (.attributeError m) := by
  refine ⟨by simp [effectiveWorkers, h2], ?_⟩
  intro net wall m
  simp only [main_run]
  rw [if_neg (by omega), if_neg (by omega)]
  constructor
  · split
    · simp
    · split_ifs <;> simp
  · split
    · simp
    · split_ifs <;> simp

/-- C3, witness: `workers = 50`, `request_count = 10` gives a pool of 10. -/
theorem C3_workers_clamped_to_request_count_witness :
    effectiveWorkers 10 50 = 10 ∧
    ∀ (net : Network) (wall : ℚ) (m : String),
      main_run ⟨"http://example.test/ok", 10, 50, false, false⟩ net wall ≠
          .error (.failJson m) ∧
        main_run ⟨"http://example.test/ok", 10, 50, false, false⟩ net wall ≠
          .error (.attributeError m) :=
  C3_workers_clamped_to_request_count
    ⟨"http://example.test/ok", 10, 50, false, false⟩ (by decide) (by decide)

/-- C4: in every run that returns a report, `failed_requests` is exactly the
number of collected results whose status is outside [200, 400), i.e.
`status < 200 or status >= 400`; results with status inside [200, 400) are
never counted. -/
theorem C4_failed_requests_counts_out_of_range (cfg : Config) (net : Network)
    (wall : ℚ) (rs : List URIResult) (rep : Report)
    (hrs : taskResults cfg net = rs.map Except.ok)
    (h : main_run cfg net wall = .ok rep) :
    rep.failed_requests = rs.countP failedStatus := by
  obtain ⟨-, -, -, rs', hrs', hrep⟩ := main_run_ok_elim cfg net wall rep h
  have hinj :
      Function.Injective (Except.ok : URIResult → Except String URIResult) :=
    fun a b hab => by injection hab
  have hrr : rs = rs' :=
    List.map_injective_iff.mpr hinj (hrs.symm.trans hrs')
  subst hrr
  rw [hrep]

/-- C4, witness at the concrete demo run (statuses 200, 404, 500: the 404
and the 500 are counted, the 200 is not). -/
theorem C4_failed_requests_counts_out_of_range_witness :
    demoRep.failed_requests = demoRs.countP failedStatus :=
  C4_failed_requests_counts_out_of_range demoCfg demoNet 1 demoRs demoRep
    demo_tasks demo_run

/-- C5: in every run that returns a report, `total_bytes_transferred` is the
sum of `content_length` over the collected results and coincides with
`total_content_bytes_transferred`, because every result built by `run_test`
has `total_length = content_length`. -/
theorem C5_total_bytes_eq_content_bytes (cfg : Config) (net : Network)
    (wall : ℚ) (rs : List URIResult) (rep : Report)
    (hrs : taskResults cfg net = rs.map Except.ok)
    (h : main_run cfg net wall = .ok rep) :
    rep.total_bytes_transferred = (rs.map URIResult.content_length).sum ∧
    rep.total_bytes_transferred = rep.total_content_bytes_transferred := by
  obtain ⟨-, -, -, rs', hrs', hrep⟩ := main_run_ok_elim cfg net wall rep h
  have hinj :
      Function.Injective (Except.ok : URIResult → Except String URIResult) :=
    fun a b hab => by injection hab
  have hrr : rs = rs' :=
    List.map_injective_iff.mpr hinj (hrs.symm.trans hrs')
  subst hrr
  have hlen : rs.map URIResult.total_length = rs.map URIResult.content_length
    := List.map_congr_left (taskResults_total_eq_content cfg net rs hrs)
  subst hrep
  constructor
  · show (rs.map URIResult.total_length).sum =
      (rs.map URIResult.content_length).sum
    rw [hlen]
  · show (rs.map URIResult.total_length).sum =
      (rs.map URIResult.content_length).sum
    rw [hlen]

/-- C5, witness at the concrete demo run (1000 + 14 + 10 = 1024 bytes). -/
theorem C5_total_bytes_eq_content_bytes_witness :
    demoRep.total_bytes_transferred =
      (demoRs.map URIResult.content_length).sum ∧
    demoRep.total_bytes_transferred =
      demoRep.total_content_bytes_transferred :=
  C5_total_bytes_eq_content_bytes demoCfg demoNet 1 demoRs demoRep
    demo_tasks demo_run

/-- C6: in every run that returns a report, `total_time` is the wall-clock
duration rounded to 3 decimal places, `requests_per_second` is
`request_count / total_time` rounded to 2 decimal places, and
`kbytes_per_second` is `(total_bytes_transferred / total_time) / 1024`
rounded to 2 decimal places. -/
theorem C6_derived_rates (cfg : Config) (net : Network) (wall : ℚ)
    (rep : Report) (h : main_run cfg net wall = .ok rep) :
    rep.total_time = pyRound 3 wall ∧
    rep.requests_per_second =
      pyRound 2 ((cfg.request_count : ℚ) / rep.total_time) ∧
    rep.kbytes_per_second =
      pyRound 2
        (((rep.total_bytes_transferred : ℚ) / rep.total_time) / 1024) := by
  obtain ⟨-, -, -, rs, -, hrep⟩ := main_run_ok_elim cfg net wall rep h
  subst hrep
  refine ⟨rfl, rfl, ?_⟩
  show pyRound 2 ((((rs.map URIResult.total_length).sum : ℚ) /
      pyRound 3 wall) / 2 ^ 10) =
    pyRound 2 ((((rs.map URIResult.total_length).sum : ℚ) /
      pyRound 3 wall) / 1024)
  norm_num

/-- C6, witness at the concrete demo run: total_time 1, 3 requests per
second, 1 kilobyte per second. -/
theorem C6_derived_rates_witness :
    demoRep.total_time = pyRound 3 1 ∧
    demoRep.requests_per_second =
      pyRound 2 ((demoCfg.request_count : ℚ) / demoRep.total_time) ∧
    demoRep.kbytes_per_second =
      pyRound 2
        (((demoRep.total_bytes_transferred : ℚ) / demoRep.total_time) /
          1024) :=
  C6_derived_rates demoCfg demoNet 1 demoRep demo_run

/-- C7, counterexample: a run whose wall-clock duration rounds to zero does
not return a report with guarded rates — `round(request_count / total_time,
2)` raises ZeroDivisionError and the run aborts. -/
theorem C7_counterexample :
    main_run demoCfg demoNet 0 = .error .zeroDivision := by
  simp only [main_run, taskResults, run_test, collectLoop, demoCfg, demoNet,
    List.range_succ, Except.map, List.range_zero, List.map_nil,
    List.map_append, List.map_cons, List.nil_append, List.cons_append]
  norm_num [pyRound, roundHalfEven, collectLoop]

/-- C7 (amended): the rate computation is not division-by-zero-guarded — in
every validated run in which all tasks succeeded but the rounded wall time
is zero, `main` raises ZeroDivisionError instead of returning a report. -/
theorem C7_zero_total_time_zero_division (cfg : Config) (net : Network)
    (wall : ℚ) (out : Nat × Nat × Nat) (h1 : 1 ≤ cfg.workers)
    (h2 : 1 ≤ cfg.request_count)
    (hok : collectLoop 0 0 0 (taskResults cfg net) = .ok out)
    (h0 : pyRound 3 wall = 0) :
    main_run cfg net wall = .error .zeroDivision := by
  obtain ⟨a, b, c⟩ := out
  simp only [main_run]
  rw [if_neg (by omega), if_neg (by omega), hok]
  simp [h0]

/-- C7, witness: a tiny but nonzero wall-clock duration (0.0001 s) rounds
to zero and the demo run aborts with ZeroDivisionError. -/
theorem C7_zero_total_time_zero_division_witness :
    main_run demoCfg demoNet (1/10000) = .error .zeroDivision :=
  C7_zero_total_time_zero_division demoCfg demoNet (1/10000) (1024, 1024, 2)
    (by decide) (by decide)
    (by rw [demo_tasks]; simp [demoRs, collectLoop])
    (by norm_num [pyRound, roundHalfEven])

/-- C8, counterexample: with `open_url` taking 2 s and the body read taking
1 more second, the recorded elapsed time is 2 — the invocation finishes at
instant 3 (started at 0), so the duration does not cover the body read and
the end timestamp is not taken after the body bytes are read. -/
theorem C8_counterexample :
    run_test (fun _ _ => .ok 200 5 2 1) "http://example.test/ok" false false
        0 =
      .ok (⟨200, 2, 5, 5⟩, 3) ∧ ¬ ((2 : ℚ) = 3 - 0) := by
  constructor
  · simp only [run_test]
    norm_num
  · norm_num

/-- C8 (amended): the end timestamp is taken when `open_url` returns and
before `res.read()`: for a successful invocation the recorded elapsed time
is exactly the `open_url` duration, while the invocation itself finishes
only after the additional body-read time (during which the bytes that
define `content_length` are read). -/
theorem C8_timer_excludes_body_read
    (net : String → List (String × String) → HttpOutcome) (uri : String)
    (ka vl : Bool) (t0 : ℚ) (code : Int) (bodyLen : Nat) (oT rT : ℚ)
    (hn : net uri (if ka then [("Connection", "keep-alive")] else []) =
      .ok code bodyLen oT rT) :
    run_test net uri ka vl t0 =
      .ok (⟨code, oT, bodyLen, bodyLen⟩, t0 + oT + rT) := by
  simp only [run_test, hn]
  have ht : t0 + oT - t0 = oT := by ring
  rw [ht]

/-- C8, witness for the amended theorem at the concrete timings of the
counterexample. -/
theorem C8_timer_excludes_body_read_witness :
    run_test (fun _ _ => .ok 200 5 2 1) "http://example.test/ok" false false
        0 =
      .ok (⟨200, 2, 5, 5⟩, 0 + 2 + 1) :=
  C8_timer_excludes_body_read (fun _ _ => .ok 200 5 2 1)
    "http://example.test/ok" false false 0 200 5 2 1 rfl

/-- C9: the reduction of collected results into byte totals and the failure
count is order-independent — permuting the (successful) result list does not
change what the accumulation loop returns. -/
theorem C9_reduction_perm_invariant (l l' : List URIResult) (hp : l.Perm l')
    (tb tcb te : Nat) :
    collectLoop tb tcb te (l.map Except.ok) =
      collectLoop tb tcb te (l'.map Except.ok) := by
  rw [collectLoop_map_ok, collectLoop_map_ok,
    (hp.map URIResult.total_length).sum_eq,
    (hp.map URIResult.content_length).sum_eq, hp.countP_eq]

/-- C9, witness: swapping two concrete results leaves the reduction
unchanged. -/
theorem C9_reduction_perm_invariant_witness :
    collectLoop 0 0 0
        ([⟨200, 1, 1000, 1000⟩, ⟨500, 1, 10, 10⟩].map Except.ok) =
      collectLoop 0 0 0
        ([⟨500, 1, 10, 10⟩, ⟨200, 1, 1000, 1000⟩].map Except.ok) :=
  C9_reduction_perm_invariant _ _ (List.Perm.swap _ _ _) 0 0 0

/-- C10: the `variable_length` flag has no effect on the run — for every
configuration, network behaviour and wall time, the outcome of `main` is
identical whether the flag is true or false (it is accepted by `run_test`
and never used). -/
theorem C10_variable_length_noninterference (cfg : Config) (net : Network)
    (wall : ℚ) (b₁ b₂ : Bool) :
    main_run { cfg with variable_length := b₁ } net wall =
      main_run { cfg with variable_length := b₂ } net wall := rfl
